import Mathlib

/-!
Shallow embedding of `src/WeatherApp/weather_fetcher.py` (a single-file
weather CLI) and proofs of its specified properties.

Modelling conventions:
* Python JSON values are the inductive type `JVal` (ints and floats kept
  separate, as Python's `json` module does; JSON `null` and Python `None`
  coincide as `JVal.null`).
* Python floats are modelled as rationals.
* Network calls are modelled by their outcome (`NetOutcome`): either the
  underlying `requests.get` raises a transport-level `RequestException`,
  or a response with a status code and parsed JSON body arrives.
* Exceptions are modelled by `PyExc` together with boolean class
  predicates mirroring the `requests` exception hierarchy
  (`HTTPError ⊂ RequestException ⊂ Exception`); `main`'s `except` clause
  order is encoded in `classifyExc`.
* The CSV log file is modelled at the record level, as the `csv` module
  manipulates it: `FileState := Option (List (List String))`, where
  `none` means the file does not exist and each record is the list of its
  8 field strings.
-/

/-- The static weather-code table of `decode_weather_code`
(`weather_fetcher.py:60-82`), verbatim. -/
def weatherCodeTable : List (Int × String) :=
  [ (0, "Clear sky"),
    (1, "Mainly clear"),
    (2, "Partly cloudy"),
    (3, "Overcast"),
    (45, "Fog"),
    (48, "Depositing rime fog"),
    (51, "Light drizzle"),
    (53, "Moderate drizzle"),
    (55, "Dense drizzle"),
    (61, "Slight rain"),
    (63, "Moderate rain"),
    (65, "Heavy rain"),
    (71, "Slight snow"),
    (73, "Moderate snow"),
    (75, "Heavy snow"),
    (80, "Rain showers (slight)"),
    (81, "Rain showers (moderate)"),
    (82, "Rain showers (violent)"),
    (95, "Thunderstorm"),
    (96, "Thunderstorm with slight hail"),
    (99, "Thunderstorm with heavy hail") ]

/-- The keys of the static table. -/
def weatherCodeKeys : List Int := weatherCodeTable.map Prod.fst

/-- `decode_weather_code` (`weather_fetcher.py:55-83`) at its annotated
type `int`: `mapping.get(int(code), f"Unknown ({code})")`.  For an `int`
argument `int(code)` is `code` itself and the f-string interpolates
`str(code)`. -/
def decode_weather_code (code : Int) : String :=
  (weatherCodeTable.lookup code).getD ("Unknown (" ++ toString code ++ ")")

/-- A `lookup` on an association list whose key is absent returns `none`. -/
theorem lookup_eq_none_of_not_mem_keys {α β : Type} [BEq α] [LawfulBEq α]
    (l : List (α × β)) (k : α) (h : k ∉ l.map Prod.fst) :
    l.lookup k = none := by
  induction l with
  | nil => rfl
  | cons p t ih =>
    simp only [List.map_cons, List.mem_cons, not_or] at h
    simp only [List.lookup]
    have hk : (k == p.1) = false := by
      simp only [beq_eq_false_iff_ne, ne_eq]
      exact h.1
    rw [hk]
    exact ih h.2

/-- Python/JSON values, as produced by `resp.json()`.  JSON `null` and
Python `None` are the same value (`json` parses `null` to `None`). -/
inductive JVal where
  | null
  | bool (b : Bool)
  | int (n : Int)
  | float (q : ℚ)
  | str (s : String)
  | arr (xs : List JVal)
  | obj (kvs : List (String × JVal))

/-- Python truthiness (`if not x`, `x or y`). -/
def pyTruthy : JVal → Bool
  | .null => false
  | .bool b => b
  | .int n => n ≠ 0
  | .float q => q ≠ 0
  | .str s => s ≠ ""
  | .arr xs => ¬xs.isEmpty
  | .obj kvs => ¬kvs.isEmpty

/-- `x is None`. -/
def JVal.isNull : JVal → Bool
  | .null => true
  | _ => false

/-- `x or y`. -/
def pyOr (x y : JVal) : JVal := if pyTruthy x then x else y

/-- Python float repr, modelled approximately (the rational is printed
as a rational).  No verified claim inspects a float's printed form. -/
def floatRepr (q : ℚ) : String := toString q

/-- Python `str(v)` as used in f-string interpolation and by the `csv`
writer.  Exact for `str`, `None`, `bool` and `int` values; container and
float reprs are approximated (no verified claim inspects them). -/
def pyStrOf : JVal → String
  | .null => "None"
  | .bool b => if b then "True" else "False"
  | .int n => toString n
  | .float q => floatRepr q
  | .str s => s
  | .arr _ => "<list>"
  | .obj _ => "<dict>"

/-- Exceptions that can be raised along the paths of `main`. -/
inductive PyExc where
  | httpErr
  | requestErr
  | keyErr (k : String)
  | attrErr
  | typeErr
  | valueErr
  | indexErr

/-- Membership in class `requests.HTTPError`. -/
def PyExc.isHTTPError : PyExc → Bool
  | .httpErr => true
  | _ => false

/-- Membership in class `requests.RequestException`.  `HTTPError` is a
subclass of `RequestException`, so it is a member too. -/
def PyExc.isRequestException : PyExc → Bool
  | .httpErr => true
  | .requestErr => true
  | _ => false

/-- The `except` ladder of `main` (`weather_fetcher.py:161-169`), in
source order: `requests.HTTPError` gives 3, then `requests.RequestException`
gives 4, then `Exception` gives 5.  An `HTTPError` is also a
`RequestException` but is caught by the earlier clause. -/
def classifyExc (e : PyExc) : Nat :=
  if e.isHTTPError then 3
  else if e.isRequestException then 4
  else 5

/-- Outcome of one `requests.get` call: either the transport raises
(`requests.RequestException`: DNS, connection, timeout), or a response
with a status code and parsed JSON body arrives. -/
inductive NetOutcome where
  | transportErr
  | response (status : Nat) (body : JVal)

/-- `resp.raise_for_status()`: raises `requests.HTTPError` exactly for
status codes 400-599. -/
def raiseForStatus (status : Nat) : Except PyExc Unit :=
  if 400 ≤ status ∧ status < 600 then .error .httpErr else .ok ()

/-- `d.get(k, default)`: on a dict, the value at `k` or the default;
on a non-dict, `.get` raises `AttributeError`. -/
def pyGetD (v : JVal) (k : String) (d : JVal) : Except PyExc JVal :=
  match v with
  | .obj kvs => .ok ((kvs.lookup k).getD d)
  | _ => .error .attrErr

/-- `d[k]` on a dict: raises `KeyError` when the key is absent; raises
`TypeError` on non-container values (string subscription by a string key
would also raise `TypeError`). -/
def pySubscriptKey (v : JVal) (k : String) : Except PyExc JVal :=
  match v with
  | .obj kvs =>
    match kvs.lookup k with
    | some x => .ok x
    | none => .error (.keyErr k)
  | _ => .error .typeErr

/-- `xs[i]` for a non-negative index.  Exact for lists; subscription of
scalars raises `TypeError` (indexing a `str` returns a character and is
approximated by `TypeError`; the subsequent `.get` on it would raise
`AttributeError` anyway, and both classify identically in `main`). -/
def pyIndexNat (v : JVal) (i : Nat) : Except PyExc JVal :=
  match v with
  | .arr xs =>
    match xs[i]? with
    | some x => .ok x
    | none => .error .indexErr
  | _ => .error .typeErr

/-- Truncation of a rational toward zero, as Python `int(float)`. -/
def ratTrunc (q : ℚ) : Int := Int.tdiv q.num q.den

/-- Python `float(v)`: exact for ints, floats and bools; numeric-string
parsing is not modelled (approximated by `ValueError`, the error a
non-numeric string raises; no verified claim passes a string). -/
def pyFloat : JVal → Except PyExc ℚ
  | .int n => .ok n
  | .float q => .ok q
  | .bool b => .ok (if b then 1 else 0)
  | .str _ => .error .valueErr
  | _ => .error .typeErr

/-- Python `int(v)`: exact for ints, floats (truncation toward zero) and
bools; numeric-string parsing is not modelled (approximated by
`ValueError`; no verified claim passes a string). -/
def pyInt : JVal → Except PyExc Int
  | .int n => .ok n
  | .float q => .ok (ratTrunc q)
  | .bool b => .ok (if b then 1 else 0)
  | .str _ => .error .valueErr
  | _ => .error .typeErr

/-- The display name `f"<name>, <country>"` built by `geocode_city`
(`weather_fetcher.py:36`). -/
def resolvedName (nm country : String) : String := nm ++ ", " ++ country

/-- `geocode_city` (`weather_fetcher.py:24-37`) as a function of the
outcome of its single network call.  Returns `none` for "not found",
`some (lat, lon, resolvedName)` on success, or the raised exception. -/
def geocode_city (net : NetOutcome) : Except PyExc (Option (ℚ × ℚ × String)) := do
  match net with
  | .transportErr => .error .requestErr
  | .response status body =>
    raiseForStatus status
    let resultsRaw ← pyGetD body "results" .null
    let results := pyOr resultsRaw (.arr [])
    if ¬pyTruthy results then
      pure none
    else do
      let r ← pyIndexNat results 0
      let nameV ← pyGetD r "name" (.str "?")
      let countryV ← pyGetD r "country" (.str "?")
      let resolved := resolvedName (pyStrOf nameV) (pyStrOf countryV)
      let latV ← pySubscriptKey r "latitude"
      let lat ← pyFloat latV
      let lonV ← pySubscriptKey r "longitude"
      let lon ← pyFloat lonV
      pure (some (lat, lon, resolved))

/-- `fetch_weather` (`weather_fetcher.py:40-52`) as a function of the
outcome of its single network call: raises on transport failure or bad
status, otherwise returns the parsed JSON body. -/
def fetch_weather (net : NetOutcome) : Except PyExc JVal := do
  match net with
  | .transportErr => .error .requestErr
  | .response status body =>
    raiseForStatus status
    pure body

/-- The decimal digit character of `d` (total: defaults to the digit of
`d` only for `d < 10`, which is the only way it is applied). -/
def digitChar : Nat → Char
  | 0 => '0'
  | 1 => '1'
  | 2 => '2'
  | 3 => '3'
  | 4 => '4'
  | 5 => '5'
  | 6 => '6'
  | 7 => '7'
  | 8 => '8'
  | 9 => '9'
  | _ => '0'

/-- Fueled digit expansion: `fuel` bounds the recursion depth and is
always sufficient when called with `fuel = n`. -/
def natDigitsAux : Nat → Nat → List Char
  | 0, n => [digitChar n]
  | fuel + 1, n =>
    if n < 10 then [digitChar n]
    else natDigitsAux fuel (n / 10) ++ [digitChar (n % 10)]

/-- The decimal digit characters of a natural number, most significant
first (the integral part of Python float formatting). -/
def natDigits (n : Nat) : List Char := natDigitsAux n n

/-- A fraction below 10000 printed as exactly four digit characters,
zero-padded on the left. -/
def pad4 (m : Nat) : List Char :=
  [digitChar (m / 1000 % 10), digitChar (m / 100 % 10),
   digitChar (m / 10 % 10), digitChar (m % 10)]

/-- Round a rational to the nearest integer, halves up: the floor of
`q + 1/2`, computed as a Euclidean division. -/
def roundQ (q : ℚ) : Int := Int.ediv (q.num * 2 + q.den) (q.den * 2)

/-- The f-string format `f"<x>:.4f"` applied to a rational: round to
four decimal places and print with exactly four digits after the point.
(Ties are rounded half-up here where CPython rounds the underlying
binary float half-to-even; no verified claim depends on a tie.) -/
def format4 (q : ℚ) : String :=
  (if roundQ (q * 10000) < 0 then "-" else "")
    ++ String.mk (natDigits ((roundQ (q * 10000)).natAbs / 10000))
    ++ "." ++ String.mk (pad4 ((roundQ (q * 10000)).natAbs % 10000))

/-- One CSV record, as the list of its field strings. -/
abbrev Record : Type := List String

/-- The log file: `none` when `weather_log.csv` does not exist, else the
list of its records. -/
abbrev FileState : Type := Option (List Record)

/-- The fixed header record of `save_to_csv`
(`weather_fetcher.py:94-103`): the 8 field names, in order. -/
def csvHeader : Record :=
  ["timestamp_local", "city", "lat", "lon",
   "temperature_c", "humidity_pct", "wind_kmh", "condition"]

/-- `save_to_csv` (`weather_fetcher.py:86-107`): checks existence, opens
in append mode, writes the header first when the file did not exist, then
appends exactly one record. -/
def save_to_csv (row : Record) (fs : FileState) : FileState :=
  match fs with
  | none => some [csvHeader, row]
  | some recs => some (recs ++ [row])

/-- Iterated `save_to_csv`, first row first. -/
def appendAll (rows : List Record) (fs : FileState) : FileState :=
  rows.foldl (fun s r => save_to_csv r s) fs

/-- The string the `csv` writer puts in a cell for a dict value: `None`
becomes the empty string, anything else its `str`. -/
def csvCell (v : JVal) : String :=
  if v.isNull then "" else pyStrOf v

/-- The data `main` assembles into the row dict of its `save_to_csv`
call (`weather_fetcher.py:146-157`). -/
structure LogRow where
  now : String
  city : String
  lat : ℚ
  lon : ℚ
  temp : JVal
  hum : JVal
  wind : JVal
  condition : String

/-- The CSV record the `csv.DictWriter` emits for `main`'s row dict:
the 8 values in the fixed field-name order, lat/lon through the `.4f`
format, the three measurements through the writer's cell conversion. -/
def mkRecord (r : LogRow) : Record :=
  [r.now, r.city, format4 r.lat, format4 r.lon,
   csvCell r.temp, csvCell r.hum, csvCell r.wind, r.condition]

/-- Python `input(...).strip()`: remove whitespace from both ends
(modelled on the character list; Python also strips some rarer Unicode
space characters that `Char.isWhitespace` does not cover). -/
def pyStrip (s : String) : String :=
  ⟨((s.data.dropWhile Char.isWhitespace).reverse.dropWhile
      Char.isWhitespace).reverse⟩

/-- The external world one run of `main` observes: `sys.argv[1:]`, what
`input()` would return, the outcomes of the two network calls, the
formatted local timestamp, and the state of `weather_log.csv`. -/
structure World where
  argvTail : List String
  promptInput : String
  geoNet : NetOutcome
  weatherNet : NetOutcome
  now : String
  file : FileState

/-- The city text of `main` (`weather_fetcher.py:112-115`): the argv
tail joined with spaces when present (NOT stripped), else the stripped
interactive input. -/
def cityInput (w : World) : String :=
  if ¬w.argvTail.isEmpty then String.intercalate " " w.argvTail
  else pyStrip w.promptInput

/-- Observable result of one run of `main`: the returned exit code,
whether each network call was issued, the final log-file state, and the
condition string that was displayed and logged (`none` when the run
ended before computing it). -/
structure RunResult where
  exitCode : Nat
  geoCalled : Bool
  weatherCalled : Bool
  file : FileState
  condition : Option String

/-- Lines 129-134 of `main`: read the `current` sub-object (default
empty dict), its four fields (default `None`), and derive the condition
string: the decoder is applied only when `weather_code` is not `None`,
else the distinct literal `"Unknown"` is used.  The decoder call is
`mapping.get(int(code), f"Unknown (<code>)")` with the original value
interpolated in the fallback. -/
def readCurrent (body : JVal) : Except PyExc (JVal × JVal × JVal × String) := do
  let cur ← pyGetD body "current" (.obj [])
  let temp ← pyGetD cur "temperature_2m" .null
  let hum ← pyGetD cur "relative_humidity_2m" .null
  let wind ← pyGetD cur "wind_speed_10m" .null
  let code ← pyGetD cur "weather_code" .null
  if code.isNull then
    pure (temp, hum, wind, "Unknown")
  else do
    let n ← pyInt code
    pure (temp, hum, wind,
      (weatherCodeTable.lookup n).getD ("Unknown (" ++ pyStrOf code ++ ")"))

/-- `main` (`weather_fetcher.py:110-169`) as a function of the world:
input, validation, geocoding, fetching, decoding, persisting, and the
`except` ladder mapping raised exceptions to exit codes 3/4/5. -/
def runMain (w : World) : RunResult :=
  let city := cityInput w
  if city = "" then
    ⟨1, false, false, w.file, none⟩
  else
    match geocode_city w.geoNet with
    | .error e => ⟨classifyExc e, true, false, w.file, none⟩
    | .ok none => ⟨2, true, false, w.file, none⟩
    | .ok (some (lat, lon, resolved)) =>
      match fetch_weather w.weatherNet with
      | .error e => ⟨classifyExc e, true, true, w.file, none⟩
      | .ok body =>
        match readCurrent body with
        | .error e => ⟨classifyExc e, true, true, w.file, none⟩
        | .ok (temp, hum, wind, condition) =>
          let row : Record :=
            mkRecord ⟨w.now, resolved, lat, lon, temp, hum, wind, condition⟩
          ⟨0, true, true, save_to_csv row w.file, some condition⟩

/-- A string whose shape is an integral part, one decimal point, and
exactly four digits after it. -/
def fourDecimalString (s : String) : Prop :=
  ∃ pre frac : String,
    s = pre ++ "." ++ frac ∧ frac.length = 4 ∧
    (∀ c ∈ frac.data, c.isDigit = true) ∧ (∀ c ∈ pre.data, c ≠ '.')

/-- A world whose whitespace-only argv defeats the empty-input check:
`" ".join(sys.argv[1:])` is not stripped, so the city text `" "` is
truthy and the run proceeds to the network. -/
def wsArgvWorld : World := ⟨[" "], "", .transportErr, .transportErr, "T", none⟩

/-- A world whose prompt input is whitespace-only. -/
def wsPromptWorld : World := ⟨[], "   ", .transportErr, .transportErr, "T", none⟩

/-- A geocoding response body with an empty result set. -/
def emptyResultsBody : JVal := .obj []

/-- A world whose geocoding call finds no location. -/
def notFoundWorld : World :=
  ⟨["Atlantis"], "", .response 200 emptyResultsBody, .transportErr, "T",
   some [csvHeader]⟩

/-- A successful geocoding body resolving Mumbai. -/
def mumbaiGeoBody : JVal :=
  .obj [("results", .arr [.obj
    [("name", .str "Mumbai"), ("country", .str "India"),
     ("latitude", .float (19076 / 1000)), ("longitude", .float (728777 / 10000))]])]

/-- A weather body whose current conditions carry code 2. -/
def mumbaiWeatherBody : JVal :=
  .obj [("current", .obj
    [("temperature_2m", .float 30), ("relative_humidity_2m", .int 70),
     ("wind_speed_10m", .float 12), ("weather_code", .int 2)])]

/-- A fully successful world: Mumbai resolves and the weather arrives. -/
def successWorld : World :=
  ⟨["Mumbai"], "", .response 200 mumbaiGeoBody, .response 200 mumbaiWeatherBody,
   "2026-10-12 00:00:00", none⟩

/-- A geocoding result object lacking both coordinate fields. -/
def noCoordResultBody : JVal :=
  .obj [("results", .arr [.obj [("name", .str "Nowhere")]])]

/-- A world whose geocoding result object lacks `latitude`. -/
def noCoordWorld : World :=
  ⟨["Nowhere"], "", .response 200 noCoordResultBody, .transportErr, "T",
   some [csvHeader]⟩

/-- A concrete log row as `main` builds one. -/
def sampleRow : LogRow :=
  ⟨"2026-10-12 00:00:00", resolvedName "Mumbai" "India", 19, 72,
   .float 30, .int 70, .float 12, "Partly cloudy"⟩

/-- C1: every integer code outside the static table decodes to the
fallback string `"Unknown (<code>)"` with the literal code interpolated.
`decode_weather_code` is a total Lean function, so in particular the
fallback never throws, for any integer (negative, zero, or positive). -/
theorem decode_unknown_code (code : Int) (h : code ∉ weatherCodeKeys) :
    decode_weather_code code = "Unknown (" ++ toString code ++ ")" := by
  unfold decode_weather_code
  rw [lookup_eq_none_of_not_mem_keys weatherCodeTable code h]
  rfl

/-- Witness for C1 at the concrete out-of-table codes -1, 100 and 9999. -/
theorem decode_unknown_code_witness :
    decode_weather_code (-1) = "Unknown (-1)" ∧
    decode_weather_code 100 = "Unknown (100)" ∧
    decode_weather_code 9999 = "Unknown (9999)" :=
  ⟨decode_unknown_code (-1) (by decide),
   decode_unknown_code 100 (by decide),
   decode_unknown_code 9999 (by decide)⟩

/-- C2: each of the 21 codes of the documented table decodes to exactly
the documented phrase.  Determinism (same input, same output on every
call) holds by construction: `decode_weather_code` is a pure function of
its argument. -/
theorem decode_known_codes :
    decode_weather_code 0 = "Clear sky" ∧
    decode_weather_code 1 = "Mainly clear" ∧
    decode_weather_code 2 = "Partly cloudy" ∧
    decode_weather_code 3 = "Overcast" ∧
    decode_weather_code 45 = "Fog" ∧
    decode_weather_code 48 = "Depositing rime fog" ∧
    decode_weather_code 51 = "Light drizzle" ∧
    decode_weather_code 53 = "Moderate drizzle" ∧
    decode_weather_code 55 = "Dense drizzle" ∧
    decode_weather_code 61 = "Slight rain" ∧
    decode_weather_code 63 = "Moderate rain" ∧
    decode_weather_code 65 = "Heavy rain" ∧
    decode_weather_code 71 = "Slight snow" ∧
    decode_weather_code 73 = "Moderate snow" ∧
    decode_weather_code 75 = "Heavy snow" ∧
    decode_weather_code 80 = "Rain showers (slight)" ∧
    decode_weather_code 81 = "Rain showers (moderate)" ∧
    decode_weather_code 82 = "Rain showers (violent)" ∧
    decode_weather_code 95 = "Thunderstorm" ∧
    decode_weather_code 96 = "Thunderstorm with slight hail" ∧
    decode_weather_code 99 = "Thunderstorm with heavy hail" := by
  decide

/-- Every character `digitChar` produces is a decimal digit. -/
theorem digitChar_isDigit (d : Nat) : (digitChar d).isDigit = true := by
  unfold digitChar
  split <;> decide

/-- Every character of a fueled digit expansion is a decimal digit. -/
theorem natDigitsAux_digits (fuel n : Nat) :
    ∀ c ∈ natDigitsAux fuel n, c.isDigit = true := by
  induction fuel generalizing n with
  | zero =>
    intro c hc
    simp only [natDigitsAux, List.mem_singleton] at hc
    exact hc ▸ digitChar_isDigit n
  | succ fuel ih =>
    intro c hc
    simp only [natDigitsAux] at hc
    by_cases h : n < 10
    · rw [if_pos h] at hc
      simp only [List.mem_singleton] at hc
      exact hc ▸ digitChar_isDigit n
    · rw [if_neg h, List.mem_append] at hc
      rcases hc with hc | hc
      · exact ih (n / 10) c hc
      · simp only [List.mem_singleton] at hc
        exact hc ▸ digitChar_isDigit _

/-- Every character of `natDigits` is a decimal digit. -/
theorem natDigits_digits (n : Nat) : ∀ c ∈ natDigits n, c.isDigit = true :=
  natDigitsAux_digits n n

/-- Every character of `pad4` is a decimal digit. -/
theorem pad4_digits (m : Nat) : ∀ c ∈ pad4 m, c.isDigit = true := by
  intro c hc
  simp only [pad4, List.mem_cons, List.not_mem_nil, or_false] at hc
  rcases hc with h | h | h | h <;> exact h ▸ digitChar_isDigit _

/-- `format4` always yields an integral part, a point, and exactly four
digits. -/
theorem format4_fourDecimal (q : ℚ) : fourDecimalString (format4 q) := by
  refine ⟨(if roundQ (q * 10000) < 0 then "-" else "")
      ++ String.mk (natDigits ((roundQ (q * 10000)).natAbs / 10000)),
    String.mk (pad4 ((roundQ (q * 10000)).natAbs % 10000)), rfl, rfl, ?_, ?_⟩
  · intro c hc
    exact pad4_digits _ c hc
  · intro c hc heq
    rw [String.data_append, List.mem_append] at hc
    rcases hc with hc | hc
    · by_cases hn : roundQ (q * 10000) < 0
      · rw [if_pos hn] at hc
        simp only [String.data] at hc
        subst heq
        exact absurd hc (by decide)
      · rw [if_neg hn] at hc
        simp only [String.data] at hc
        exact absurd hc (List.not_mem_nil c)
    · have := natDigits_digits _ c hc
      subst heq
      exact absurd this (by decide)

/-- Appending rows one by one to an existing file concatenates them. -/
theorem appendAll_some (rows recs : List Record) :
    appendAll rows (some recs) = some (recs ++ rows) := by
  induction rows generalizing recs with
  | nil => simp [appendAll]
  | cons r t ih =>
    simp only [appendAll, List.foldl_cons] at ih ⊢
    show appendAll t (save_to_csv r (some recs)) = some (recs ++ (r :: t))
    show appendAll t (some (recs ++ [r])) = some (recs ++ (r :: t))
    rw [appendAll, ih]
    simp

/-- C6: the header is written exactly when the file does not yet exist.
Appending to a fresh file writes the header, then the record; appending
to an existing file appends exactly the one record, so the header count
never changes (a record `main` produces differs from the header: its
city field contains a comma, which no field name does).  The resolved
city name always contains a comma. -/
theorem header_iff_fresh (r : LogRow) (hc : (',' : Char) ∈ r.city.data) :
    save_to_csv (mkRecord r) none = some [csvHeader, mkRecord r] ∧
    (∀ recs, save_to_csv (mkRecord r) (some recs) = some (recs ++ [mkRecord r])) ∧
    mkRecord r ≠ csvHeader ∧
    List.count csvHeader [csvHeader, mkRecord r] = 1 ∧
    (∀ recs, List.count csvHeader (recs ++ [mkRecord r])
      = List.count csvHeader recs) ∧
    (∀ a b : String, (',' : Char) ∈ (resolvedName a b).data) := by
  have hne : mkRecord r ≠ csvHeader := by
    intro heq
    simp only [mkRecord, csvHeader, List.cons.injEq] at heq
    rw [heq.2.1] at hc
    exact absurd hc (by decide)
  refine ⟨rfl, fun recs => rfl, hne, ?_, ?_, ?_⟩
  · simp [List.count_cons, List.count_singleton, hne]
  · intro recs
    simp [List.count_append, List.count_singleton, hne]
  · intro a b
    simp [resolvedName, String.data_append]

/-- Witness for C6 at a concrete row. -/
theorem header_iff_fresh_witness :
    save_to_csv (mkRecord sampleRow) none = some [csvHeader, mkRecord sampleRow] ∧
    save_to_csv (mkRecord sampleRow) (some [csvHeader])
      = some [csvHeader, mkRecord sampleRow] ∧
    List.count csvHeader [csvHeader, mkRecord sampleRow] = 1 := by
  have h := header_iff_fresh sampleRow (by decide)
  exact ⟨h.1, h.2.1 [csvHeader], h.2.2.2.1⟩

/-- A run with a nonempty city whose geocoding returns no match ends in
exit code 2, touches nothing. -/
theorem runMain_geocode_none (w : World) (hcity : cityInput w ≠ "")
    (hgeo : geocode_city w.geoNet = .ok none) :
    runMain w = ⟨2, true, false, w.file, none⟩ := by
  simp only [runMain]
  rw [if_neg hcity, hgeo]

/-- A run with a nonempty city whose geocoding raises ends with the
classified exit code, before the weather call. -/
theorem runMain_geocode_error (w : World) (e : PyExc) (hcity : cityInput w ≠ "")
    (hgeo : geocode_city w.geoNet = .error e) :
    runMain w = ⟨classifyExc e, true, false, w.file, none⟩ := by
  simp only [runMain]
  rw [if_neg hcity, hgeo]

/-- A run whose weather call raises ends with the classified exit code. -/
theorem runMain_fetch_error (w : World) (e : PyExc) (la lo : ℚ) (nm : String)
    (hcity : cityInput w ≠ "")
    (hgeo : geocode_city w.geoNet = .ok (some (la, lo, nm)))
    (hf : fetch_weather w.weatherNet = .error e) :
    runMain w = ⟨classifyExc e, true, true, w.file, none⟩ := by
  simp only [runMain]
  rw [if_neg hcity, hgeo]
  dsimp only
  rw [hf]

/-- A run whose payload processing raises ends with the classified exit
code. -/
theorem runMain_read_error (w : World) (e : PyExc) (la lo : ℚ) (nm : String)
    (body : JVal) (hcity : cityInput w ≠ "")
    (hgeo : geocode_city w.geoNet = .ok (some (la, lo, nm)))
    (hf : fetch_weather w.weatherNet = .ok body)
    (hr : readCurrent body = .error e) :
    runMain w = ⟨classifyExc e, true, true, w.file, none⟩ := by
  simp only [runMain]
  rw [if_neg hcity, hgeo]
  dsimp only
  rw [hf]
  dsimp only
  rw [hr]

/-- A fully successful run returns 0, appends exactly one record, and
displays the derived condition. -/
theorem runMain_success (w : World) (la lo : ℚ) (nm : String) (body : JVal)
    (temp hum wind : JVal) (cond : String) (hcity : cityInput w ≠ "")
    (hgeo : geocode_city w.geoNet = .ok (some (la, lo, nm)))
    (hf : fetch_weather w.weatherNet = .ok body)
    (hr : readCurrent body = .ok (temp, hum, wind, cond)) :
    runMain w = ⟨0, true, true,
      save_to_csv (mkRecord ⟨w.now, nm, la, lo, temp, hum, wind, cond⟩) w.file,
      some cond⟩ := by
  simp only [runMain]
  rw [if_neg hcity, hgeo]
  dsimp only
  rw [hf]
  dsimp only
  rw [hr]

/-- C7 counterexample at N = 0: appending zero records to a fresh
(non-existent) destination leaves the file non-existent; no file with a
header line is produced, contrary to the claim's "for every N ≥ 0". -/
theorem csv_fresh_zero_records_counterexample :
    appendAll [] none = none ∧ (none : FileState) ≠ some [csvHeader] :=
  ⟨rfl, by decide⟩

/-- C7 amended to N ≥ 1: appending N ≥ 1 records (as `main` builds them)
to a fresh destination produces exactly one header line followed by the
N data records in order; the header names the 8 columns in their fixed
order, every record has exactly 8 fields, the lat and lon fields sit at
positions 2 and 3, and every `.4f`-formatted field consists of an
integral part, one point, and exactly four digits after it. -/
theorem csv_fresh_structure (rows : List LogRow) (h : rows ≠ []) :
    appendAll (rows.map mkRecord) none
      = some (csvHeader :: rows.map mkRecord) ∧
    (csvHeader :: rows.map mkRecord).length = rows.length + 1 ∧
    csvHeader = ["timestamp_local", "city", "lat", "lon",
      "temperature_c", "humidity_pct", "wind_kmh", "condition"] ∧
    (∀ rec ∈ csvHeader :: rows.map mkRecord, rec.length = 8) ∧
    (∀ r : LogRow, (mkRecord r)[2]? = some (format4 r.lat) ∧
      (mkRecord r)[3]? = some (format4 r.lon)) ∧
    (∀ q : ℚ, fourDecimalString (format4 q)) := by
  obtain ⟨r, t, rfl⟩ := List.exists_cons_of_ne_nil h
  refine ⟨?_, by simp, rfl, ?_, fun r => ⟨rfl, rfl⟩, format4_fourDecimal⟩
  · show appendAll (mkRecord r :: t.map mkRecord) none
      = some (csvHeader :: mkRecord r :: t.map mkRecord)
    show appendAll (t.map mkRecord) (save_to_csv (mkRecord r) none)
      = some (csvHeader :: mkRecord r :: t.map mkRecord)
    rw [show save_to_csv (mkRecord r) none = some [csvHeader, mkRecord r] from rfl]
    rw [appendAll_some]
    rfl
  · intro rec hrec
    rcases List.mem_cons.mp hrec with hrec | hrec
    · subst hrec; rfl
    · obtain ⟨x, _, rfl⟩ := List.mem_map.mp hrec
      rfl

/-- Witness for C7 at one concrete row. -/
theorem csv_fresh_structure_witness :
    appendAll ([sampleRow].map mkRecord) none
      = some (csvHeader :: [sampleRow].map mkRecord) ∧
    fourDecimalString (format4 (19 : ℚ)) := by
  have h := csv_fresh_structure [sampleRow] (by simp)
  exact ⟨h.1, h.2.2.2.2.2 19⟩

/-- C3 counterexample: with the whitespace-only argv `[" "]` the joined
city text is `" "`, which is not stripped and not empty, so the run does
issue the geocoding network call and does not exit with code 1 (here the
transport fails, so it exits 4). -/
theorem empty_input_claim_counterexample :
    cityInput wsArgvWorld = " " ∧
    (runMain wsArgvWorld).geoCalled = true ∧
    (runMain wsArgvWorld).exitCode = 4 :=
  ⟨rfl, rfl, rfl⟩

/-- C3 amended: a run exits 1 before any network call when the effective
city text is empty, that is, when the arguments are absent and the
prompt input strips to the empty string, or when the provided arguments
join to the empty string.  (Whitespace-only argv text is NOT trimmed by
the source and proceeds to the network, as the counterexample shows.) -/
theorem empty_input_exit1 (w : World)
    (h : (w.argvTail.isEmpty = true ∧ pyStrip w.promptInput = "") ∨
         (w.argvTail.isEmpty = false ∧ String.intercalate " " w.argvTail = "")) :
    runMain w = ⟨1, false, false, w.file, none⟩ := by
  have hc : cityInput w = "" := by
    rcases h with ⟨h1, h2⟩ | ⟨h1, h2⟩ <;> simp [cityInput, h1, h2]
  simp only [runMain]
  rw [hc]
  rfl

/-- Witness for C3 (amended) at whitespace-only prompt input. -/
theorem empty_input_exit1_witness :
    runMain wsPromptWorld = ⟨1, false, false, none, none⟩ :=
  empty_input_exit1 wsPromptWorld (Or.inl ⟨rfl, by decide⟩)

/-- C4: a run whose geocoding yields the NotFound outcome (empty remote
result set) terminates with exit code 2, the weather call is never
issued, and the log file is left exactly as it was. -/
theorem notfound_exit2 (w : World) (hcity : cityInput w ≠ "")
    (hgeo : geocode_city w.geoNet = .ok none) :
    runMain w = ⟨2, true, false, w.file, none⟩ :=
  runMain_geocode_none w hcity hgeo

/-- Witness for C4: a world with an existing one-line log and an empty
geocoding result set keeps the log identical. -/
theorem notfound_exit2_witness :
    runMain notFoundWorld = ⟨2, true, false, some [csvHeader], none⟩ :=
  notfound_exit2 notFoundWorld (by decide) rfl

/-- Binding a success in the `Except` monad applies the continuation. -/
@[simp] theorem exceptBind_ok {ε α β : Type} (x : α) (f : α → Except ε β) :
    (Except.ok x : Except ε α) >>= f = f x := rfl

/-- Binding an error in the `Except` monad propagates it. -/
@[simp] theorem exceptBind_error {ε α β : Type} (e : ε) (f : α → Except ε β) :
    (Except.error e : Except ε α) >>= f = Except.error e := rfl

/-- Mapping over a success in the `Except` monad applies the function. -/
@[simp] theorem exceptMap_ok {ε α β : Type} (f : α → β) (x : α) :
    f <$> (Except.ok x : Except ε α) = Except.ok (f x) := rfl

/-- Mapping over an error in the `Except` monad propagates it. -/
@[simp] theorem exceptMap_error {ε α β : Type} (f : α → β) (e : ε) :
    f <$> (Except.error e : Except ε α) = Except.error e := rfl

/-- A successful `lookup` finds one of the listed pairs. -/
theorem lookup_mem_of_eq_some {α β : Type} [BEq α] [LawfulBEq α]
    (l : List (α × β)) (k : α) (v : β) (h : l.lookup k = some v) :
    (k, v) ∈ l := by
  induction l with
  | nil => simp [List.lookup] at h
  | cons p t ih =>
    cases p with
    | mk a b =>
      simp only [List.lookup] at h
      by_cases hk : (k == a) = true
      · rw [hk] at h
        simp only [Option.some.injEq] at h
        have hka : k = a := eq_of_beq hk
        rw [hka, h]
        exact List.mem_cons_self _ _
      · rw [Bool.not_eq_true] at hk
        rw [hk] at h
        exact List.mem_cons_of_mem _ (ih h)

/-- C5: the exit-code mapping is total and exclusive over error kinds.
The three `classifyExc` equivalences partition the exceptions: 3 exactly
for `HTTPError`, 4 exactly for the remaining `RequestException`s, 5
exactly for everything outside `RequestException`; in particular an
`HTTPError` is itself a `RequestException`, yet is classified 3 and
never 4, because the `except HTTPError` clause precedes the
`except RequestException` clause.  A bad status (400-599, the statuses
`raise_for_status` raises on) surfaces as `HTTPError`, a transport
failure as a plain `RequestException`, and the remaining conjuncts
propagate each kind through `runMain`: 3/4/5 on the failing paths, 0 on
the fully successful path. -/
theorem exit_code_mapping :
    (∀ e : PyExc, classifyExc e = 3 ↔ e.isHTTPError = true) ∧
    (∀ e : PyExc, classifyExc e = 4 ↔
      (e.isHTTPError = false ∧ e.isRequestException = true)) ∧
    (∀ e : PyExc, classifyExc e = 5 ↔ e.isRequestException = false) ∧
    (PyExc.httpErr.isRequestException = true ∧ classifyExc .httpErr = 3) ∧
    (∀ s : Nat, 400 ≤ s → s < 600 → raiseForStatus s = .error .httpErr) ∧
    (geocode_city .transportErr = .error .requestErr ∧
      fetch_weather .transportErr = .error .requestErr) ∧
    (∀ w e, cityInput w ≠ "" → geocode_city w.geoNet = .error e →
      runMain w = ⟨classifyExc e, true, false, w.file, none⟩) ∧
    (∀ w e la lo nm, cityInput w ≠ "" →
      geocode_city w.geoNet = .ok (some (la, lo, nm)) →
      fetch_weather w.weatherNet = .error e →
      runMain w = ⟨classifyExc e, true, true, w.file, none⟩) ∧
    (∀ w e la lo nm body, cityInput w ≠ "" →
      geocode_city w.geoNet = .ok (some (la, lo, nm)) →
      fetch_weather w.weatherNet = .ok body → readCurrent body = .error e →
      runMain w = ⟨classifyExc e, true, true, w.file, none⟩) ∧
    (∀ w la lo nm body temp hum wind cond, cityInput w ≠ "" →
      geocode_city w.geoNet = .ok (some (la, lo, nm)) →
      fetch_weather w.weatherNet = .ok body →
      readCurrent body = .ok (temp, hum, wind, cond) →
      (runMain w).exitCode = 0) := by
  refine ⟨?_, ?_, ?_, ⟨rfl, rfl⟩, ?_, ⟨rfl, rfl⟩, ?_, ?_, ?_, ?_⟩
  · intro e
    cases e <;> simp [classifyExc, PyExc.isHTTPError, PyExc.isRequestException]
  · intro e
    cases e <;> simp [classifyExc, PyExc.isHTTPError, PyExc.isRequestException]
  · intro e
    cases e <;> simp [classifyExc, PyExc.isHTTPError, PyExc.isRequestException]
  · intro s h1 h2
    simp [raiseForStatus, h1, h2]
  · exact fun w e hc hg => runMain_geocode_error w e hc hg
  · exact fun w e la lo nm hc hg hf => runMain_fetch_error w e la lo nm hc hg hf
  · exact fun w e la lo nm body hc hg hf hr =>
      runMain_read_error w e la lo nm body hc hg hf hr
  · intro w la lo nm body temp hum wind cond hc hg hf hr
    rw [runMain_success w la lo nm body temp hum wind cond hc hg hf hr]

/-- Witness for C5: concrete classifications, a concrete transport
failure run exiting 4, and a concrete fully successful run exiting 0. -/
theorem exit_code_mapping_witness :
    classifyExc .httpErr = 3 ∧
    raiseForStatus 404 = .error .httpErr ∧
    runMain wsArgvWorld = ⟨classifyExc .requestErr, true, false, none, none⟩ ∧
    (runMain successWorld).exitCode = 0 := by
  obtain ⟨h1, _, _, _, h5, _, h7, _, _, h10⟩ := exit_code_mapping
  refine ⟨(h1 .httpErr).mpr rfl, h5 404 (by omega) (by omega), ?_, ?_⟩
  · exact h7 wsArgvWorld .requestErr (by decide) rfl
  · exact h10 successWorld (19076 / 1000) (728777 / 10000)
      (resolvedName "Mumbai" "India") mumbaiWeatherBody
      (.float 30) (.int 70) (.float 12) "Partly cloudy" (by decide) rfl rfl rfl

/-- C8: the orchestrator distinguishes a missing condition code from an
unrecognized one.  When the payload carries no `weather_code` (absent
key or JSON `null`, both Python `None`), the decoder is bypassed and the
condition string is exactly `"Unknown"`; when an integer code is
present, the decoder runs, and out-of-table codes give
`"Unknown (<code>)"`.  No decoder output ever equals the bare
`"Unknown"`, so the two outcomes are never conflated; the derived
condition string is both the one displayed and the one logged. -/
theorem condition_missing_vs_unrecognized :
    (∀ (bkvs ckvs : List (String × JVal)),
      List.lookup "current" bkvs = some (.obj ckvs) →
      (List.lookup "weather_code" ckvs = none ∨
       List.lookup "weather_code" ckvs = some .null) →
      ∃ t h wd, readCurrent (.obj bkvs) = .ok (t, h, wd, "Unknown")) ∧
    (∀ (bkvs ckvs : List (String × JVal)) (n : Int),
      List.lookup "current" bkvs = some (.obj ckvs) →
      List.lookup "weather_code" ckvs = some (.int n) →
      ∃ t h wd, readCurrent (.obj bkvs) = .ok (t, h, wd, decode_weather_code n)) ∧
    (∀ n : Int, n ∉ weatherCodeKeys →
      decode_weather_code n = "Unknown (" ++ toString n ++ ")") ∧
    (∀ n : Int, decode_weather_code n ≠ "Unknown") ∧
    (∀ (w : World) (la lo : ℚ) (nm : String) (body temp hum wind : JVal)
        (cond : String), cityInput w ≠ "" →
      geocode_city w.geoNet = .ok (some (la, lo, nm)) →
      fetch_weather w.weatherNet = .ok body →
      readCurrent body = .ok (temp, hum, wind, cond) →
      (runMain w).condition = some cond ∧
      (runMain w).file = save_to_csv
        (mkRecord ⟨w.now, nm, la, lo, temp, hum, wind, cond⟩) w.file) := by
  refine ⟨?_, ?_, ?_, ?_, ?_⟩
  · intro bkvs ckvs h1 h2
    rcases h2 with h2 | h2 <;>
    · refine ⟨(List.lookup "temperature_2m" ckvs).getD .null,
        (List.lookup "relative_humidity_2m" ckvs).getD .null,
        (List.lookup "wind_speed_10m" ckvs).getD .null, ?_⟩
      simp [readCurrent, pyGetD, h1, h2, JVal.isNull, pure, Except.pure]
  · intro bkvs ckvs n h1 h2
    refine ⟨(List.lookup "temperature_2m" ckvs).getD .null,
      (List.lookup "relative_humidity_2m" ckvs).getD .null,
      (List.lookup "wind_speed_10m" ckvs).getD .null, ?_⟩
    simp [readCurrent, pyGetD, h1, h2, JVal.isNull, pyInt, pure, Except.pure,
      decode_weather_code, pyStrOf]
  · intro n hn
    unfold decode_weather_code
    rw [lookup_eq_none_of_not_mem_keys weatherCodeTable n hn]
    rfl
  · intro n
    unfold decode_weather_code
    cases hl : weatherCodeTable.lookup n with
    | some v =>
      have hmem := lookup_mem_of_eq_some weatherCodeTable n v hl
      have hval : ∀ p ∈ weatherCodeTable, p.2 ≠ "Unknown" := by decide
      simpa using hval (n, v) hmem
    | none =>
      simp only [Option.getD]
      intro heq
      have hlen := congrArg String.length heq
      rw [String.length_append, String.length_append] at hlen
      have h1 : "Unknown (".length = 9 := rfl
      have h2 : ")".length = 1 := rfl
      have h3 : "Unknown".length = 7 := rfl
      rw [h1, h2, h3] at hlen
      omega
  · intro w la lo nm body temp hum wind cond hc hg hf hr
    rw [runMain_success w la lo nm body temp hum wind cond hc hg hf hr]
    exact ⟨rfl, rfl⟩

/-- Witness for C8: a payload whose `current` dict is empty yields
condition `"Unknown"`; code 100 is out of table and decodes to
`"Unknown (100)"`, which differs from `"Unknown"`. -/
theorem condition_missing_vs_unrecognized_witness :
    (∃ t h wd, readCurrent (.obj [("current", .obj [])])
      = .ok (t, h, wd, "Unknown")) ∧
    (∃ t h wd, readCurrent (.obj [("current",
        .obj [("weather_code", .int 100)])])
      = .ok (t, h, wd, decode_weather_code 100)) ∧
    decode_weather_code 100 = "Unknown (100)" ∧
    decode_weather_code 100 ≠ "Unknown" := by
  obtain ⟨h1, h2, h3, h4, _⟩ := condition_missing_vs_unrecognized
  exact ⟨h1 [("current", .obj [])] [] rfl (Or.inl rfl),
    h2 [("current", .obj [("weather_code", .int 100)])]
      [("weather_code", .int 100)] 100 rfl rfl,
    h3 100 (by decide), h4 100⟩

/-- C9: the geocoder treats an absent `results` key, a `null` value and
an empty `results` array identically: each is replaced by `[]` through
`data.get("results") or []`, which is falsy, so the function returns
`None` rather than raising, and the orchestrator exits 2. -/
theorem geocode_notfound_uniform (bkvs : List (String × JVal)) (s : Nat)
    (hs : s < 400)
    (h : List.lookup "results" bkvs = none ∨
         List.lookup "results" bkvs = some .null ∨
         List.lookup "results" bkvs = some (.arr [])) :
    geocode_city (.response s (.obj bkvs)) = .ok none ∧
    (∀ w : World, cityInput w ≠ "" → w.geoNet = .response s (.obj bkvs) →
      runMain w = ⟨2, true, false, w.file, none⟩) := by
  have hns : ¬(400 ≤ s ∧ s < 600) := by omega
  have hg : geocode_city (.response s (.obj bkvs)) = .ok none := by
    rcases h with h | h | h <;>
      simp [geocode_city, raiseForStatus, hns, pyGetD, h, pyOr, pyTruthy, pure,
        Except.pure]
  exact ⟨hg, fun w hc hw => runMain_geocode_none w hc (hw ▸ hg)⟩

/-- Witness for C9 at the three concrete result-set shapes. -/
theorem geocode_notfound_uniform_witness :
    geocode_city (.response 200 (.obj [])) = .ok none ∧
    geocode_city (.response 200 (.obj [("results", .null)])) = .ok none ∧
    geocode_city (.response 200 (.obj [("results", .arr [])])) = .ok none ∧
    runMain notFoundWorld = ⟨2, true, false, some [csvHeader], none⟩ := by
  refine ⟨(geocode_notfound_uniform [] 200 (by omega) (Or.inl rfl)).1,
    (geocode_notfound_uniform [("results", .null)] 200 (by omega)
      (Or.inr (Or.inl rfl))).1,
    (geocode_notfound_uniform [("results", .arr [])] 200 (by omega)
      (Or.inr (Or.inr rfl))).1,
    (geocode_notfound_uniform [] 200 (by omega) (Or.inl rfl)).2
      notFoundWorld (by decide) rfl⟩

/-- C10: a result object without `name` and `country` still resolves,
with `"?"` substituted in the display name (likewise a present name with
a missing country); a result object without `latitude` (or without
`longitude`) makes the geocoder raise `KeyError`, which the orchestrator
classifies as an unexpected failure with exit code 5 — not NotFound
(2), not HTTP-status (3), not transport (4). -/
theorem geocode_partial_fields (s : Nat) (rkvs : List (String × JVal))
    (la lo : ℚ) (hs : s < 400) :
    (List.lookup "name" rkvs = none → List.lookup "country" rkvs = none →
      List.lookup "latitude" rkvs = some (.float la) →
      List.lookup "longitude" rkvs = some (.float lo) →
      geocode_city (.response s (.obj [("results", .arr [.obj rkvs])]))
        = .ok (some (la, lo, resolvedName "?" "?"))) ∧
    (∀ nm : String, List.lookup "name" rkvs = some (.str nm) →
      List.lookup "country" rkvs = none →
      List.lookup "latitude" rkvs = some (.float la) →
      List.lookup "longitude" rkvs = some (.float lo) →
      geocode_city (.response s (.obj [("results", .arr [.obj rkvs])]))
        = .ok (some (la, lo, resolvedName nm "?"))) ∧
    (List.lookup "latitude" rkvs = none →
      geocode_city (.response s (.obj [("results", .arr [.obj rkvs])]))
        = .error (.keyErr "latitude")) ∧
    (List.lookup "latitude" rkvs = some (.float la) →
      List.lookup "longitude" rkvs = none →
      geocode_city (.response s (.obj [("results", .arr [.obj rkvs])]))
        = .error (.keyErr "longitude")) ∧
    (∀ k : String, classifyExc (.keyErr k) = 5) ∧
    (∀ (w : World) (k : String), cityInput w ≠ "" →
      geocode_city w.geoNet = .error (.keyErr k) →
      runMain w = ⟨5, true, false, w.file, none⟩) := by
  have hns : ¬(400 ≤ s ∧ s < 600) := by omega
  refine ⟨?_, ?_, ?_, ?_, fun k => rfl, ?_⟩
  · intro h1 h2 h3 h4
    simp [geocode_city, raiseForStatus, hns, pyGetD, pyOr, pyTruthy,
      pyIndexNat, pySubscriptKey, h1, h2, h3, h4, pyStrOf, pyFloat, pure,
      Except.pure]
  · intro nm h1 h2 h3 h4
    simp [geocode_city, raiseForStatus, hns, pyGetD, pyOr, pyTruthy,
      pyIndexNat, pySubscriptKey, h1, h2, h3, h4, pyStrOf, pyFloat, pure,
      Except.pure]
  · intro h1
    simp [geocode_city, raiseForStatus, hns, pyGetD, pyOr, pyTruthy,
      pyIndexNat, pySubscriptKey, h1, pyStrOf]
  · intro h1 h2
    simp [geocode_city, raiseForStatus, hns, pyGetD, pyOr, pyTruthy,
      pyIndexNat, pySubscriptKey, h1, h2, pyStrOf, pyFloat]
  · intro w k hc hg
    exact runMain_geocode_error w (.keyErr k) hc hg

/-- Witness for C10: a result object carrying only a name raises
`KeyError` on `latitude` and the run exits 5; a result object carrying
only coordinates resolves with display name `"?, ?"`. -/
theorem geocode_partial_fields_witness :
    geocode_city (.response 200 noCoordResultBody)
      = .error (.keyErr "latitude") ∧
    runMain noCoordWorld = ⟨5, true, false, some [csvHeader], none⟩ ∧
    geocode_city (.response 200 (.obj [("results", .arr [.obj
        [("latitude", .float 1), ("longitude", .float 2)]])]))
      = .ok (some (1, 2, resolvedName "?" "?")) := by
  have h := geocode_partial_fields 200 [("name", .str "Nowhere")] 0 0 (by omega)
  have h2 := geocode_partial_fields 200
    [("latitude", .float 1), ("longitude", .float 2)] 1 2 (by omega)
  exact ⟨h.2.2.1 rfl,
    h.2.2.2.2.2 noCoordWorld "latitude" (by decide) (h.2.2.1 rfl),
    h2.1 rfl rfl rfl rfl⟩
